import Mathlib

/-
Verification of the input-validation, error-taxonomy and orchestration layer
of the nodejs-rag-module repository, as a shallow embedding in Lean.

JavaScript strings are modelled as Lean strings (lists of characters);
JS string length is modelled as the character count, which coincides with
the UTF-16 unit count on every input whose behaviour the theorems below
depend on.  JS numbers are modelled as rationals.  Thrown errors are values
of an explicit error type, and async methods are modelled as pure functions
returning an Except result together with the trace of collaborator calls
they performed.
-/

namespace RAG

/-- The closed ErrorCodes enumeration from src/src/errors/index.ts. -/
inductive ErrorCodes where
  | MODEL_LOAD_FAILED
  | DATABASE_CONNECTION_FAILED
  | TABLE_CREATION_FAILED
  | EMBEDDING_FAILED
  | VECTOR_SAVE_FAILED
  | SEARCH_FAILED
  | INVALID_INPUT
deriving DecidableEq, Repr

/-- A JavaScript error value: either a RAGError of the taxonomy (with or
without a wrapped cause) or a foreign JS error such as a TypeError,
identified by its constructor name and message. -/
inductive JsError where
  | js (errName : String) (message : String)
  | ragNoCause (message : String) (code : ErrorCodes)
  | ragCause (message : String) (code : ErrorCodes) (cause : JsError)
deriving DecidableEq, Repr

/-- The message carried by an error (every JS Error has .message). -/
def JsError.msg : JsError → String
  | .js _ m => m
  | .ragNoCause m _ => m
  | .ragCause m _ _ => m

/-- Whether the error is an instance of RAGError (the taxonomy shape). -/
def JsError.isRag : JsError → Bool
  | .js _ _ => false
  | .ragNoCause _ _ => true
  | .ragCause _ _ _ => true

/-- The taxonomy kind of an error, when it is a RAGError. -/
def JsError.code : JsError → Option ErrorCodes
  | .js _ _ => none
  | .ragNoCause _ c => some c
  | .ragCause _ c _ => some c

/-- Shorthand for a cause-less INVALID_INPUT RAGError. -/
def invalidInput (m : String) : JsError := .ragNoCause m .INVALID_INPUT

/-- A JavaScript value, as far as the validators inspect one:
typeof checks distinguish strings, numbers, null/undefined and the rest. -/
inductive JSVal where
  | undef
  | nul
  | boolean (b : Bool)
  | num (q : ℚ)
  | str (s : String)
  | objOther
deriving DecidableEq, Repr

/-- ECMAScript WhiteSpace and LineTerminator characters, the set removed
from both ends by String.prototype.trim. -/
def jsWhiteSpace (c : Char) : Bool :=
  [' ', '\t', '\n', '\r', '\x0b', '\x0c', '\u00A0', '\u1680',
   '\u2000', '\u2001', '\u2002', '\u2003', '\u2004', '\u2005',
   '\u2006', '\u2007', '\u2008', '\u2009', '\u200A', '\u2028',
   '\u2029', '\u202F', '\u205F', '\u3000', '\uFEFF'].contains c

/-- String.prototype.trim on a list of characters. -/
def jsTrimL (cs : List Char) : List Char :=
  ((cs.dropWhile jsWhiteSpace).reverse.dropWhile jsWhiteSpace).reverse

/-- String.prototype.trim. -/
def jsTrim (s : String) : String := ⟨jsTrimL s.data⟩

/-- The .length property of a JS string, modelled as the character
count of the Lean string. -/
def jsLength (s : String) : ℕ := s.data.length

/-- An ASCII letter, the class [a-zA-Z] of the table-name regex. -/
def isAZLetter (c : Char) : Bool :=
  (('a' ≤ c) && (c ≤ 'z')) || (('A' ≤ c) && (c ≤ 'Z'))

/-- The class [a-zA-Z0-9_-] of the table-name regex. -/
def isTailChar (c : Char) : Bool :=
  isAZLetter c || (('0' ≤ c) && (c ≤ '9')) || (c == '_') || (c == '-')

/-- The anchored regex test for TABLE_NAME_REGEX, over a character list. -/
def matchesTableRegexL : List Char → Bool
  | [] => false
  | c :: cs => isAZLetter c && cs.all isTailChar

/-- The anchored test of TABLE_NAME_REGEX from src/unnamed/part_001. -/
def matchesTableRegex (s : String) : Bool := matchesTableRegexL s.data

/-- The fixed 21-word SQL reserved word list from InputValidator. -/
def reservedWords : List String :=
  ["SELECT", "INSERT", "UPDATE", "DELETE", "DROP", "CREATE", "ALTER", "INDEX",
   "TABLE", "DATABASE", "SCHEMA", "VIEW", "TRIGGER", "PROCEDURE", "FUNCTION",
   "UNION", "JOIN", "WHERE", "ORDER", "GROUP", "HAVING", "LIMIT"]

/-- toUpperCase followed by the reserved-word membership check. -/
def reservedHit (t : String) : Bool := reservedWords.contains t.toUpper

/-- The control characters stripped by InputValidator.sanitizeText. -/
def isStrippedControl (c : Char) : Bool :=
  (c.val ≤ 0x08) || (c.val == 0x0B) || (c.val == 0x0C) ||
  ((0x0E ≤ c.val) && (c.val ≤ 0x1F)) || (c.val == 0x7F)

/-- InputValidator.sanitizeText from src/unnamed/part_001. -/
def sanitizeText (s : String) : String :=
  ⟨s.data.filter (fun c => !isStrippedControl c)⟩

/-- InputValidator.validateText from src/unnamed/part_001 lines 20-42.
Note that both the empty-string branch and the trims-to-empty branch
produce the same message variant. -/
def validateText (v : JSVal) (fieldName : String) : Except JsError String :=
  match v with
  | .str s =>
    if jsLength s = 0 then
      .error (invalidInput (fieldName ++ " cannot be empty"))
    else if jsLength (jsTrim s) = 0 then
      .error (invalidInput (fieldName ++ " cannot be empty"))
    else if 1000000 < jsLength (jsTrim s) then
      .error (invalidInput
        (fieldName ++ " exceeds maximum length of 1000000 characters"))
    else .ok (jsTrim s)
  | _ => .error (invalidInput (fieldName ++ " must be a string"))

/-- InputValidator.validateTableName from src/unnamed/part_001 lines 50-87.
Every check after the raw-emptiness test is performed on the trimmed name. -/
def validateTableName (v : JSVal) : Except JsError String :=
  match v with
  | .str s =>
    if jsLength s = 0 then
      .error (invalidInput "Table name cannot be empty")
    else if jsLength (jsTrim s) = 0 then
      .error (invalidInput "Table name cannot be empty or whitespace only")
    else if 64 < jsLength (jsTrim s) then
      .error (invalidInput "Invalid table name format")
    else if !matchesTableRegex (jsTrim s) then
      .error (invalidInput "Invalid table name format")
    else if reservedHit (jsTrim s) then
      .error (invalidInput
        ("Table name \x27" ++ jsTrim s ++ "\x27 is a reserved SQL keyword"))
    else .ok (jsTrim s)
  | _ => .error (invalidInput "Table name must be a string")

/-- Number.isInteger. -/
def jsIsInteger (q : ℚ) : Bool := q.den == 1

/-- Number.MAX_SAFE_INTEGER. -/
def MAX_SAFE_INTEGER : ℚ := 9007199254740991

/-- InputValidator.validateId from src/unnamed/part_001 lines 95-113. -/
def validateId (v : JSVal) : Except JsError ℚ :=
  match v with
  | .num q =>
    if !jsIsInteger q then
      .error (invalidInput "ID must be a non-negative integer")
    else if q < 0 then
      .error (invalidInput "ID must be a non-negative integer")
    else if MAX_SAFE_INTEGER < q then
      .error (invalidInput "ID exceeds maximum safe integer value")
    else .ok q
  | _ => .error (invalidInput "ID must be a number")

/-- InputValidator.validateSearchQuantity from src/unnamed/part_001. -/
def validateSearchQuantity (v : JSVal) : Except JsError ℚ :=
  match v with
  | .num q =>
    if !jsIsInteger q then
      .error (invalidInput "Quantity must be a positive integer")
    else if q < 1 then
      .error (invalidInput "Quantity must be a positive integer")
    else if 1000 < q then
      .error (invalidInput "Quantity cannot exceed 1000 results")
    else .ok q
  | _ => .error (invalidInput "Quantity must be a number")

/-- A collaborator call made by the orchestrator, recorded in the trace
of each operation. -/
inductive Event where
  | embedInit (modelPath : String)
  | dbInit (databasePath : String)
  | embedCall (text : String)
  | createTable (tablename : String)
  | insertVector (tablename : String) (id : ℚ) (vec : List ℚ)
  | searchCall (tablename : String) (queryVector : List ℚ) (limit : ℚ)
  | embedCloseCall
  | dbCloseCall
  | mysqlCreateTable (tablename : String)
  | mysqlInsert (tablename : String)
  | mysqlUpdate (tablename : String) (id : ℚ)
  | mysqlDelete (tablename : String) (id : ℚ)
  | mysqlGetByIds (tablename : String) (ids : List ℚ)
deriving DecidableEq, Repr

/-- Whether a trace event writes to the vector store: collection creation
(createTableIfNotExists) or vector insertion (insertVector). -/
def Event.isStoreWrite : Event → Bool
  | .createTable _ => true
  | .insertVector _ _ _ => true
  | _ => false

/-- Whether a trace event is a vector insertion (insertVector). -/
def Event.isInsertVector : Event → Bool
  | .insertVector _ _ _ => true
  | _ => false

/-- Outcomes of the external collaborators (embedding engine, sqlite-vec
store), one field per method the orchestrator can call.  Each field maps
the call arguments to the settled result of the awaited promise. -/
structure Env where
  embedInitResult : String → Except JsError Unit
  dbInitResult : String → Except JsError Unit
  embedResult : String → Except JsError (List ℚ)
  createTableResult : String → Except JsError Unit
  insertResult : String → ℚ → List ℚ → Except JsError Bool
  searchResult : String → List ℚ → ℚ → Except JsError (List ℚ)
  embedCloseResult : Except JsError Unit
  dbCloseResult : Except JsError Unit

/-- The RAGModule instance state: the lifecycle flag plus configuration. -/
structure ModState where
  initialized : Bool
  modelPath : String
  databasePath : String
deriving DecidableEq, Repr

/-- The catch-block pattern used throughout the orchestrator: a RAGError
is rethrown unchanged, any other error is wrapped once with the given
message and kind, the original error attached as cause. -/
def wrapForeign (msgStart : String) (kind : ErrorCodes) (e : JsError) :
    JsError :=
  match e with
  | .js n m => .ragCause (msgStart ++ m) kind (.js n m)
  | other => other

/-- JS property access v.length throws a TypeError when v is null or
undefined, and evaluates without throwing otherwise. -/
def lengthAccessOk (v : JSVal) : Bool :=
  match v with
  | .undef => false
  | .nul => false
  | _ => true

/-- The TypeError raised by accessing .length on an undefined field. -/
def lengthTypeError : JsError :=
  .js "TypeError"
    "Cannot read properties of undefined (reading \x27length\x27)"

/-- The gate failure of every RAGModule data operation. -/
def notInitialized : JsError := invalidInput "RAG module not initialized"

structure EmbedRequest where
  text : JSVal
deriving DecidableEq, Repr

structure SaveRequest where
  id : JSVal
  text : JSVal
  tablename : JSVal
deriving DecidableEq, Repr

structure SearchRequest where
  text : JSVal
  tablename : JSVal
  qty : JSVal
deriving DecidableEq, Repr

/-- RAGModule.validateEmbedRequest: validateText then sanitizeText. -/
def validateEmbedRequest (req : EmbedRequest) : Except JsError String :=
  match validateText req.text "text" with
  | .error e => .error e
  | .ok t => .ok (sanitizeText t)

/-- RAGModule.validateSaveRequest from src/src/index.ts lines 369-379:
text is validated and sanitized first, then the id, then the tablename. -/
def validateSaveRequest (req : SaveRequest) :
    Except JsError (String × ℚ × String) :=
  match validateText req.text "text" with
  | .error e => .error e
  | .ok t =>
    match validateId req.id with
    | .error e => .error e
    | .ok i =>
      match validateTableName req.tablename with
      | .error e => .error e
      | .ok tn => .ok (sanitizeText t, i, tn)

/-- RAGModule.validateSearchRequest from src/src/index.ts lines 381-391. -/
def validateSearchRequest (req : SearchRequest) :
    Except JsError (String × String × ℚ) :=
  match validateText req.text "Search text" with
  | .error e => .error e
  | .ok t =>
    match validateTableName req.tablename with
    | .error e => .error e
    | .ok tn =>
      match validateSearchQuantity req.qty with
      | .error e => .error e
      | .ok q => .ok (sanitizeText t, tn, q)

/-- RAGModule.embed from src/src/index.ts lines 87-116.  The initialized
gate comes first; the debug-log line then evaluates request.text.length
outside the try block; inside the try the request is validated and the
embedding engine is called, RAGErrors rethrown unchanged and foreign
errors wrapped once as EMBEDDING_FAILED. -/
def RAGModule.embed (env : Env) (st : ModState) (req : EmbedRequest) :
    Except JsError (List ℚ) × List Event :=
  if st.initialized = false then (.error notInitialized, [])
  else if lengthAccessOk req.text = false then (.error lengthTypeError, [])
  else
    match validateEmbedRequest req with
    | .error e => (.error e, [])
    | .ok t =>
      match env.embedResult t with
      | .ok v => (.ok v, [.embedCall t])
      | .error e =>
        (.error (wrapForeign "Failed to generate embedding: "
          .EMBEDDING_FAILED e), [.embedCall t])

/-- RAGModule.save from src/src/index.ts lines 139-193: gate, debug-log
access of request.text.length, validation, embedding, idempotent table
creation, vector insert; the storage boolean is returned as-is; RAGErrors
pass unchanged, foreign errors wrap once as VECTOR_SAVE_FAILED. -/
def RAGModule.save (env : Env) (st : ModState) (req : SaveRequest) :
    Except JsError Bool × List Event :=
  if st.initialized = false then (.error notInitialized, [])
  else if lengthAccessOk req.text = false then (.error lengthTypeError, [])
  else
    match validateSaveRequest req with
    | .error e => (.error e, [])
    | .ok (t, i, tn) =>
      match env.embedResult t with
      | .error e =>
        (.error (wrapForeign "Failed to save vector: "
          .VECTOR_SAVE_FAILED e), [.embedCall t])
      | .ok v =>
        match env.createTableResult tn with
        | .error e =>
          (.error (wrapForeign "Failed to save vector: "
            .VECTOR_SAVE_FAILED e), [.embedCall t, .createTable tn])
        | .ok _ =>
          match env.insertResult tn i v with
          | .error e =>
            (.error (wrapForeign "Failed to save vector: "
              .VECTOR_SAVE_FAILED e),
             [.embedCall t, .createTable tn, .insertVector tn i v])
          | .ok b =>
            (.ok b, [.embedCall t, .createTable tn, .insertVector tn i v])

/-- The input validation of SQLiteVectorSearchService.search from
src/src/services/vectorSearch.ts: table name, query vector and limit are
re-checked before delegating; over rationals the per-element number check
always passes, so only an empty query vector can fail after the
orchestrator has already validated the name and quantity. -/
def vsValidate (tn : String) (qv : List ℚ) (limit : ℚ) : Option JsError :=
  if jsLength tn = 0 || jsLength (jsTrim tn) = 0 then
    some (invalidInput "Table name cannot be empty")
  else if !matchesTableRegex tn || 64 < tn.length then
    some (invalidInput "Invalid table name format")
  else if qv.length = 0 then
    some (invalidInput "Query vector must be a non-empty array")
  else if !jsIsInteger limit || limit ≤ 0 then
    some (invalidInput "Limit must be a positive integer")
  else if 1000 < limit then
    some (invalidInput "Limit cannot exceed 1000 results")
  else none

/-- SQLiteVectorSearchService.search: validate, delegate to
DatabaseService.searchSimilar, rethrow RAGErrors, wrap foreign errors
once as SEARCH_FAILED. -/
def vectorSearchSvc (env : Env) (tn : String) (qv : List ℚ) (limit : ℚ) :
    Except JsError (List ℚ) × List Event :=
  match vsValidate tn qv limit with
  | some e => (.error e, [])
  | none =>
    match env.searchResult tn qv limit with
    | .ok r => (.ok r, [.searchCall tn qv limit])
    | .error e =>
      (.error (wrapForeign "Vector search failed: " .SEARCH_FAILED e),
       [.searchCall tn qv limit])

/-- RAGModule.search from src/src/index.ts lines 216-267. -/
def RAGModule.search (env : Env) (st : ModState) (req : SearchRequest) :
    Except JsError (List ℚ) × List Event :=
  if st.initialized = false then (.error notInitialized, [])
  else if lengthAccessOk req.text = false then (.error lengthTypeError, [])
  else
    match validateSearchRequest req with
    | .error e => (.error e, [])
    | .ok (t, tn, q) =>
      match env.embedResult t with
      | .error e =>
        (.error (wrapForeign "Failed to search vectors: "
          .SEARCH_FAILED e), [.embedCall t])
      | .ok qv =>
        match vectorSearchSvc env tn qv q with
        | (.ok r, tr) => (.ok r, .embedCall t :: tr)
        | (.error e, tr) =>
          (.error (wrapForeign "Failed to search vectors: "
            .SEARCH_FAILED e), .embedCall t :: tr)

/-- RAGModule.initialize from src/src/index.ts lines 282-319: a no-op
when already initialized; otherwise the embedding engine is loaded and
then the vector store opened, and the flag is set only after both
succeed.  RAGErrors propagate, foreign errors wrap as MODEL_LOAD_FAILED. -/
def RAGModule.initMod (env : Env) (st : ModState) :
    ModState × Except JsError Unit × List Event :=
  if st.initialized = true then (st, .ok (), [])
  else
    match env.embedInitResult st.modelPath with
    | .error e =>
      (st, .error (wrapForeign "Failed to initialize RAG module: "
        .MODEL_LOAD_FAILED e), [.embedInit st.modelPath])
    | .ok _ =>
      match env.dbInitResult st.databasePath with
      | .error e =>
        (st, .error (wrapForeign "Failed to initialize RAG module: "
          .MODEL_LOAD_FAILED e),
         [.embedInit st.modelPath, .dbInit st.databasePath])
      | .ok _ =>
        ({st with initialized := true}, .ok (),
         [.embedInit st.modelPath, .dbInit st.databasePath])

/-- RAGModule.close from src/src/index.ts lines 333-367: a no-op when
not initialized; otherwise the embedding engine and then the vector store
are released, and the flag is cleared only after both succeed. -/
def RAGModule.close (env : Env) (st : ModState) :
    ModState × Except JsError Unit × List Event :=
  if st.initialized = false then (st, .ok (), [])
  else
    match env.embedCloseResult with
    | .error e =>
      (st, .error (wrapForeign "Failed to close RAG module: "
        .MODEL_LOAD_FAILED e), [.embedCloseCall])
    | .ok _ =>
      match env.dbCloseResult with
      | .error e =>
        (st, .error (wrapForeign "Failed to close RAG module: "
          .MODEL_LOAD_FAILED e), [.embedCloseCall, .dbCloseCall])
      | .ok _ =>
        ({st with initialized := false}, .ok (),
         [.embedCloseCall, .dbCloseCall])

/-- State of the SQLiteVectorDatabase service. -/
structure DbState where
  dbInitialized : Bool
  dbPath : String
deriving DecidableEq, Repr

/-- SQLiteVectorDatabase.initialize from src/src/services/database.ts
lines 11-45.  The connection step rejects with a RAGError built from the
driver callback error; the extension-loading step likewise; the outer
catch block then wraps whatever error it received — including RAGErrors,
since this catch has no instanceof check — into a fresh
DATABASE_CONNECTION_FAILED RAGError with a new message.  connectErr and
extensionErr are the driver-level failures of the two steps (none means
the step succeeds). -/
def SQLiteVectorDatabase.initDb (connectErr : Option String)
    (extensionErr : Option String) (st : DbState) (path : String) :
    DbState × Except JsError Unit :=
  if st.dbInitialized = true && st.dbPath == path then (st, .ok ())
  else
    match connectErr with
    | some m =>
      (({st with dbPath := path}),
       .error (.ragCause ("Failed to initialize database: " ++
           ("Failed to connect to database: " ++ m))
         .DATABASE_CONNECTION_FAILED
         (.ragCause ("Failed to connect to database: " ++ m)
           .DATABASE_CONNECTION_FAILED (.js "Error" m))))
    | none =>
      match extensionErr with
      | some m =>
        (({st with dbPath := path}),
         .error (.ragCause ("Failed to initialize database: " ++
             ("Failed to load sqlite-vec extension: " ++ m))
           .DATABASE_CONNECTION_FAILED
           (.ragCause ("Failed to load sqlite-vec extension: " ++ m)
             .DATABASE_CONNECTION_FAILED (.js "Error" m))))
      | none => ({st with dbInitialized := true, dbPath := path}, .ok ())

/-- A document row of the hybrid relational store. -/
structure DocRecord where
  title : Option String
  content : String
  metadata : Option JSVal
deriving DecidableEq, Repr

/-- A partial update set for HybridRAGModule.updateDocument: a field set
to some value is present in the update object, none means absent. -/
structure DocUpdates where
  title : Option String
  content : Option String
  metadata : Option JSVal
deriving DecidableEq, Repr

/-- Whether the update set contains at least one recognized field. -/
def DocUpdates.hasFields (u : DocUpdates) : Bool :=
  u.title.isSome || u.content.isSome || u.metadata.isSome

/-- JS truthiness of updates.content: present and a non-empty string. -/
def contentTruthy (c : Option String) : Bool :=
  match c with
  | some s => jsLength s ≠ 0
  | none => false

/-- Applying the SET clause built by MySQLDatabase.updateDocument to one
row: each present field overwrites the stored one. -/
def applyDocUpdates (r : DocRecord) (u : DocUpdates) : DocRecord :=
  { title := match u.title with | some t => some t | none => r.title,
    content := match u.content with | some c => c | none => r.content,
    metadata := match u.metadata with | some m => some m | none => r.metadata }

/-- MySQLDatabase.updateDocument over one table (a list of rows keyed by
id): with no recognized fields it returns false without touching the
table; otherwise it updates the matching row and reports whether a row
was affected. -/
def mysqlUpdateDocument (tbl : List (ℚ × DocRecord)) (id : ℚ)
    (u : DocUpdates) : List (ℚ × DocRecord) × Bool :=
  if u.hasFields = false then (tbl, false)
  else
    (tbl.map (fun p => if p.1 == id then (p.1, applyDocUpdates p.2 u) else p),
     tbl.any (fun p => p.1 == id))

/-- MySQLDatabase.deleteDocument over one table: removes the row and
reports whether a row was affected. -/
def mysqlDeleteDocument (tbl : List (ℚ × DocRecord)) (id : ℚ) :
    List (ℚ × DocRecord) × Bool :=
  (tbl.filter (fun p => p.1 != id), tbl.any (fun p => p.1 == id))

/-- The AUTO_INCREMENT id generated by the relational insert. -/
def nextDocId (tbl : List (ℚ × DocRecord)) : ℚ :=
  1 + (tbl.map (fun p => p.1)).foldr max 0

/-- HybridRAGModule instance state: the lifecycle flag, the relational
document store (per table name) and the vector store (per table name and
id). -/
structure HybridState where
  initialized : Bool
  docStore : String → List (ℚ × DocRecord)
  vecStore : String → ℚ → Option (List ℚ)

/-- The gate failure of every HybridRAGModule operation. -/
def hybridNotInitialized : JsError :=
  invalidInput "Hybrid RAG module not initialized"

/-- Store a vector under (tablename, id), insert-or-replace. -/
def putVector (st : HybridState) (tn : String) (id : ℚ) (v : List ℚ) :
    HybridState :=
  {st with vecStore := fun n i =>
    if n == tn && i == id then some v else st.vecStore n i}

/-- Replace one table of the document store. -/
def putDocTable (st : HybridState) (tn : String)
    (tbl : List (ℚ × DocRecord)) : HybridState :=
  {st with docStore := fun n => if n == tn then tbl else st.docStore n}

structure SaveDocumentRequest where
  title : Option String
  content : JSVal
  metadata : Option JSVal
  tablename : JSVal
deriving DecidableEq, Repr

/-- HybridRAGModule.validateSaveDocumentRequest from src/unnamed/part_004
lines 362-370. -/
def validateSaveDocumentRequest (req : SaveDocumentRequest) :
    Except JsError (String × String) :=
  match validateText req.content "document content" with
  | .error e => .error e
  | .ok c =>
    match validateTableName req.tablename with
    | .error e => .error e
    | .ok tn => .ok (sanitizeText c, tn)

/-- HybridRAGModule.saveDocument from src/unnamed/part_004 lines 99-153
on the success path of the collaborators: gate, debug-log access of
request.content.length, validation, relational table creation and insert
producing the generated id, embedding of the content, vector table
creation, vector insert under the same id. -/
def HybridRAGModule.saveDocument (embedFn : String → List ℚ)
    (st : HybridState) (req : SaveDocumentRequest) :
    HybridState × Except JsError ℚ × List Event :=
  if st.initialized = false then (st, .error hybridNotInitialized, [])
  else if lengthAccessOk req.content = false then
    (st, .error lengthTypeError, [])
  else
    match validateSaveDocumentRequest req with
    | .error e => (st, .error e, [])
    | .ok (c, tn) =>
      let tbl := st.docStore tn
      let id := nextDocId tbl
      let row : DocRecord :=
        { title := req.title, content := c, metadata := req.metadata }
      let st1 := putDocTable st tn (tbl ++ [(id, row)])
      let v := embedFn c
      (putVector st1 tn id v, .ok id,
       [.mysqlCreateTable tn, .mysqlInsert tn, .embedCall c,
        .createTable tn, .insertVector tn id v])

/-- HybridRAGModule.getDocument from src/unnamed/part_004 lines 295-313
on the success path: gate, then a single-id relational fetch. -/
def HybridRAGModule.getDocument (st : HybridState) (tn : String) (id : ℚ) :
    Except JsError (Option DocRecord) × List Event :=
  if st.initialized = false then (.error hybridNotInitialized, [])
  else
    (.ok ((st.docStore tn).lookup id), [.mysqlGetByIds tn [id]])

/-- HybridRAGModule.searchDocuments from src/unnamed/part_004 lines
158-226 on the success path: gate, debug-log access of
request.text.length, validation, embedding, vector search for ids, then
a batch relational fetch in vector-ranking order. -/
def HybridRAGModule.searchDocuments (embedFn : String → List ℚ)
    (searchFn : String → List ℚ → ℚ → List ℚ) (st : HybridState)
    (req : SearchRequest) :
    Except JsError (List (ℚ × DocRecord)) × List Event :=
  if st.initialized = false then (.error hybridNotInitialized, [])
  else if lengthAccessOk req.text = false then (.error lengthTypeError, [])
  else
    match validateSearchRequest req with
    | .error e => (.error e, [])
    | .ok (t, tn, q) =>
      let qv := embedFn t
      let ids := searchFn tn qv q
      if ids.length = 0 then (.ok [], [.embedCall t, .searchCall tn qv q])
      else
        (.ok (ids.filterMap
          (fun i => ((st.docStore tn).lookup i).map (fun r => (i, r)))),
         [.embedCall t, .searchCall tn qv q, .mysqlGetByIds tn ids])

/-- HybridRAGModule.updateDocument from src/unnamed/part_004 lines
231-261: gate, relational update, then — only when the update reported a
change AND updates.content is truthy — re-embedding of the new content
and re-upsert of the vector under the same id.  No input validation is
performed by this operation. -/
def HybridRAGModule.updateDocument (embedFn : String → List ℚ)
    (st : HybridState) (tn : String) (id : ℚ) (u : DocUpdates) :
    HybridState × Except JsError Bool × List Event :=
  if st.initialized = false then (st, .error hybridNotInitialized, [])
  else if (mysqlUpdateDocument (st.docStore tn) id u).2 &&
      contentTruthy u.content then
    (putVector
      (putDocTable st tn (mysqlUpdateDocument (st.docStore tn) id u).1)
      tn id (embedFn (u.content.getD "")),
     .ok (mysqlUpdateDocument (st.docStore tn) id u).2,
     [.mysqlUpdate tn id, .embedCall (u.content.getD ""),
      .insertVector tn id (embedFn (u.content.getD ""))])
  else
    (putDocTable st tn (mysqlUpdateDocument (st.docStore tn) id u).1,
     .ok (mysqlUpdateDocument (st.docStore tn) id u).2,
     [.mysqlUpdate tn id])

/-- HybridRAGModule.deleteDocument from src/unnamed/part_004 lines
266-290: gate, then the relational delete only — the source notes that
sqlite-vec has no per-row delete and leaves the vector store untouched. -/
def HybridRAGModule.deleteDocument (st : HybridState) (tn : String)
    (id : ℚ) : HybridState × Except JsError Bool × List Event :=
  if st.initialized = false then (st, .error hybridNotInitialized, [])
  else
    (putDocTable st tn (mysqlDeleteDocument (st.docStore tn) id).1,
     .ok (mysqlDeleteDocument (st.docStore tn) id).2, [.mysqlDelete tn id])

/-- A collaborator environment in which every call succeeds. -/
def envOk : Env :=
  { embedInitResult := fun _ => .ok (),
    dbInitResult := fun _ => .ok (),
    embedResult := fun t => .ok [(t.length : ℚ)],
    createTableResult := fun _ => .ok (),
    insertResult := fun _ _ _ => .ok true,
    searchResult := fun _ _ _ => .ok [1],
    embedCloseResult := .ok (),
    dbCloseResult := .ok () }

/-- An initialized RAGModule instance. -/
def stInit : ModState := ⟨true, "./model.gguf", "./rag.db"⟩

/-- A freshly constructed, uninitialized RAGModule instance. -/
def stUninit : ModState := ⟨false, "./model.gguf", "./rag.db"⟩

/-- A freshly constructed, uninitialized HybridRAGModule instance. -/
def hstUninit : HybridState := ⟨false, fun _ => [], fun _ _ => none⟩

/-- An initialized hybrid instance holding one document (id 1, content
"old") in table "t" whose paired vector collection stores [99] under the
same id. -/
def hstEx : HybridState :=
  ⟨true,
   fun n => if n == "t" then [(1, ⟨none, "old", none⟩)] else [],
   fun n i => if n == "t" && i == 1 then some [99] else none⟩

/-- A deterministic embedding engine used in concrete runs. -/
def embedFnEx (s : String) : List ℚ := [(s.length : ℚ)]

/-- Claim C1, settled as a code bug: InputValidator.validateText raises
the same message, "text cannot be empty", both for the empty string and
for a non-empty string that trims to empty — the two failure cases are
NOT distinguishable, and the variant "cannot be empty or whitespace
only" claimed by the spec (and expected by the repository's own unit
test for a whitespace-only string) is never produced by validateText. -/
theorem c1_validateText_message_bug :
    validateText (.str "   ") "text" =
      .error (invalidInput "text cannot be empty") ∧
    validateText (.str "") "text" =
      .error (invalidInput "text cannot be empty") := by
  exact ⟨rfl, rfl⟩

/-- Claim C2, settled as a code bug: on an initialized module, a request
whose text field is undefined makes the debug-log line of embed, save
and search evaluate request.text.length before the try block, so a raw
TypeError — not a taxonomy RAGError — reaches the caller. -/
theorem c2_embed_nontaxonomy_escape :
    (RAGModule.embed envOk stInit ⟨JSVal.undef⟩).1 =
      .error lengthTypeError ∧
    (RAGModule.save envOk stInit ⟨.num 1, JSVal.undef, .str "t"⟩).1 =
      .error lengthTypeError ∧
    (RAGModule.search envOk stInit ⟨JSVal.undef, .str "t", .num 1⟩).1 =
      .error lengthTypeError ∧
    lengthTypeError.isRag = false := by
  exact ⟨rfl, rfl, rfl, rfl⟩

/-- Claim C3, counterexample: SQLiteVectorDatabase.initialize re-wraps a
taxonomy error.  When the sqlite3 connection callback fails with "boom",
the connection step rejects with a RAGError, and the outer catch block —
which has no instanceof passthrough — wraps that RAGError into a second
RAGError with a different message, so a taxonomy error does NOT
propagate unchanged through this intermediate layer. -/
theorem c3_counterexample :
    (SQLiteVectorDatabase.initDb (some "boom") none ⟨false, ""⟩
        "./rag.db").2 =
      .error (.ragCause
        "Failed to initialize database: Failed to connect to database: boom"
        .DATABASE_CONNECTION_FAILED
        (.ragCause "Failed to connect to database: boom"
          .DATABASE_CONNECTION_FAILED (.js "Error" "boom"))) ∧
    JsError.isRag (.ragCause "Failed to connect to database: boom"
        .DATABASE_CONNECTION_FAILED (.js "Error" "boom")) = true ∧
    "Failed to initialize database: Failed to connect to database: boom" ≠
      "Failed to connect to database: boom" := by
  refine ⟨rfl, rfl, ?_⟩
  decide

/-- Claim C4, counterexample: the gate error message of the orchestrator
is "RAG module not initialized", not the exact string "module not
initialized" stated by the claim. -/
theorem c4_counterexample :
    (RAGModule.embed envOk stUninit ⟨.str "hello"⟩).1 =
      .error (invalidInput "RAG module not initialized") ∧
    "RAG module not initialized" ≠ "module not initialized" := by
  refine ⟨rfl, ?_⟩
  decide

/-- Claim C6, counterexample: validateTableName trims before testing the
grammar, so the string " a " — which does NOT match the anchored regex
on the raw input — is accepted and its trimmed form returned, instead of
raising INVALID_INPUT as the claim requires for every non-matching
string. -/
theorem c6_counterexample :
    validateTableName (.str " a ") = .ok "a" ∧
    matchesTableRegex " a " = false := by
  exact ⟨by with_unfolding_all rfl, rfl⟩

/-- Claim C7, counterexample: an update set containing content with the
empty-string value updates the relational row (the update reports a
change) but — because the source tests truthiness, not presence, of
updates.content — never re-embeds, leaving the stored vector [99] stale
with respect to the new content whose embedding differs. -/
theorem c7_counterexample :
    (HybridRAGModule.updateDocument embedFnEx hstEx "t" 1
        ⟨none, some "", none⟩).2.1 = .ok true ∧
    ((HybridRAGModule.updateDocument embedFnEx hstEx "t" 1
        ⟨none, some "", none⟩).2.2).any Event.isInsertVector = false ∧
    (HybridRAGModule.updateDocument embedFnEx hstEx "t" 1
        ⟨none, some "", none⟩).1.vecStore "t" 1 = some [99] ∧
    embedFnEx "" ≠ [99] := by
  refine ⟨rfl, rfl, rfl, ?_⟩
  decide

/-- Claim C8, confirmed: whatever the collaborator outcomes, the state
and the request, the trace of RAGModule.embed contains no vector-store
write — neither a createTableIfNotExists nor an insertVector call — so
both stores are unchanged after embed, on success and on every failure
path alike. -/
theorem c8_embed_no_store_writes (env : Env) (st : ModState)
    (req : EmbedRequest) :
    ((RAGModule.embed env st req).2).any Event.isStoreWrite = false := by
  unfold RAGModule.embed
  split
  · rfl
  · split
    · rfl
    · split
      · rfl
      · split <;> rfl

/-- Claim C9, confirmed lifecycle invariants: initialize on an already
initialized instance performs no collaborator calls and leaves the state
unchanged; close on a non-initialized instance performs no collaborator
calls; and whenever initialize fails the returned state still has the
initialized flag false. -/
theorem c9_lifecycle (env : Env) (st : ModState) :
    (st.initialized = true → RAGModule.initMod env st = (st, .ok (), [])) ∧
    (st.initialized = false → RAGModule.close env st = (st, .ok (), [])) ∧
    (∀ e, (RAGModule.initMod env st).2.1 = .error e →
      (RAGModule.initMod env st).1.initialized = false) := by
  refine ⟨?_, ?_, ?_⟩
  · intro h
    unfold RAGModule.initMod
    simp [h]
  · intro h
    unfold RAGModule.close
    simp [h]
  · intro e h
    unfold RAGModule.initMod at h ⊢
    by_cases hi : st.initialized = true
    · simp [hi] at h
    · have hi2 : st.initialized = false := by
        revert hi
        cases st.initialized <;> simp
      simp only [hi2] at h ⊢
      rcases h1 : env.embedInitResult st.modelPath with e1 | u1
      · simp [h1, hi2]
      · rcases h2 : env.dbInitResult st.databasePath with e2 | u2
        · simp [h1, h2, hi2]
        · simp [h1, h2] at h

/-- The closed instantiation of c9_lifecycle: on an already initialized
instance with all collaborators healthy, initialize is a no-op. -/
theorem c9_lifecycle_witness :
    RAGModule.initMod envOk stInit = (stInit, .ok (), []) :=
  (c9_lifecycle envOk stInit).1 rfl

/-- Claim C10, confirmed: on an initialized hybrid instance,
deleteDocument removes only the relational row — the vector store field
of the state is returned untouched, no vector-store write appears in the
trace, and the reported boolean is exactly whether a relational row with
that id existed.  In particular the vector stored under the deleted id
remains and can still be returned by later similarity searches. -/
theorem c10_delete_frame (st : HybridState) (tn : String) (id : ℚ)
    (h : st.initialized = true) :
    (HybridRAGModule.deleteDocument st tn id).1.vecStore = st.vecStore ∧
    ((HybridRAGModule.deleteDocument st tn id).2.2).any Event.isStoreWrite
      = false ∧
    (HybridRAGModule.deleteDocument st tn id).2.1 =
      .ok ((st.docStore tn).any (fun p => p.1 == id)) := by
  unfold HybridRAGModule.deleteDocument
  simp [h, putDocTable, mysqlDeleteDocument, Event.isStoreWrite]

/-- The closed instantiation of c10_delete_frame at the sample hybrid
instance. -/
theorem c10_delete_frame_witness :
    (HybridRAGModule.deleteDocument hstEx "t" 1).1.vecStore =
      hstEx.vecStore ∧
    ((HybridRAGModule.deleteDocument hstEx "t" 1).2.2).any
      Event.isStoreWrite = false ∧
    (HybridRAGModule.deleteDocument hstEx "t" 1).2.1 =
      .ok ((hstEx.docStore "t").any (fun p => p.1 == 1)) :=
  c10_delete_frame hstEx "t" 1 rfl

/-- Claim C4, amended and confirmed: every data operation of both module
variants, called while not initialized, fails before any validation or
collaborator call with an INVALID_INPUT taxonomy error whose message is
"RAG module not initialized" (plain) or "Hybrid RAG module not
initialized" (hybrid) — each ending in "module not initialized" but not
equal to it — with an empty collaborator trace and, for the stateful
operations, an unchanged state. -/
theorem c4_gate_initialized_check (env : Env) (st : ModState)
    (hst : HybridState) (r1 : EmbedRequest) (r2 : SaveRequest)
    (r3 : SearchRequest) (embedFn : String → List ℚ)
    (searchFn : String → List ℚ → ℚ → List ℚ)
    (rd : SaveDocumentRequest) (tn : String) (id : ℚ) (u : DocUpdates)
    (h : st.initialized = false) (hh : hst.initialized = false) :
    RAGModule.embed env st r1 = (.error notInitialized, []) ∧
    RAGModule.save env st r2 = (.error notInitialized, []) ∧
    RAGModule.search env st r3 = (.error notInitialized, []) ∧
    HybridRAGModule.saveDocument embedFn hst rd =
      (hst, .error hybridNotInitialized, []) ∧
    HybridRAGModule.searchDocuments embedFn searchFn hst r3 =
      (.error hybridNotInitialized, []) ∧
    HybridRAGModule.updateDocument embedFn hst tn id u =
      (hst, .error hybridNotInitialized, []) ∧
    HybridRAGModule.deleteDocument hst tn id =
      (hst, .error hybridNotInitialized, []) ∧
    HybridRAGModule.getDocument hst tn id =
      (.error hybridNotInitialized, []) ∧
    notInitialized = invalidInput "RAG module not initialized" ∧
    hybridNotInitialized =
      invalidInput "Hybrid RAG module not initialized" := by
  refine ⟨?_, ?_, ?_, ?_, ?_, ?_, ?_, ?_, rfl, rfl⟩ <;>
    simp [RAGModule.embed, RAGModule.save, RAGModule.search,
      HybridRAGModule.saveDocument, HybridRAGModule.searchDocuments,
      HybridRAGModule.updateDocument, HybridRAGModule.deleteDocument,
      HybridRAGModule.getDocument, h, hh]

/-- The closed instantiation of c4_gate_initialized_check on fresh
uninitialized instances. -/
theorem c4_gate_witness :
    RAGModule.embed envOk stUninit ⟨.str "x"⟩ =
      (.error notInitialized, []) ∧
    RAGModule.save envOk stUninit ⟨.num 1, .str "x", .str "t"⟩ =
      (.error notInitialized, []) ∧
    RAGModule.search envOk stUninit ⟨.str "x", .str "t", .num 1⟩ =
      (.error notInitialized, []) ∧
    HybridRAGModule.saveDocument embedFnEx hstUninit
      ⟨none, .str "x", none, .str "t"⟩ =
      (hstUninit, .error hybridNotInitialized, []) ∧
    HybridRAGModule.searchDocuments embedFnEx (fun _ _ _ => [])
      hstUninit ⟨.str "x", .str "t", .num 1⟩ =
      (.error hybridNotInitialized, []) ∧
    HybridRAGModule.updateDocument embedFnEx hstUninit "t" 1
      ⟨none, none, none⟩ = (hstUninit, .error hybridNotInitialized, []) ∧
    HybridRAGModule.deleteDocument hstUninit "t" 1 =
      (hstUninit, .error hybridNotInitialized, []) ∧
    HybridRAGModule.getDocument hstUninit "t" 1 =
      (.error hybridNotInitialized, []) ∧
    notInitialized = invalidInput "RAG module not initialized" ∧
    hybridNotInitialized =
      invalidInput "Hybrid RAG module not initialized" :=
  c4_gate_initialized_check envOk stUninit hstUninit ⟨.str "x"⟩
    ⟨.num 1, .str "x", .str "t"⟩ ⟨.str "x", .str "t", .num 1⟩
    embedFnEx (fun _ _ _ => []) ⟨none, .str "x", none, .str "t"⟩
    "t" 1 ⟨none, none, none⟩ rfl rfl

/-- Claim C7, amended and confirmed: on an initialized hybrid instance,
updateDocument re-embeds and re-upserts the vector exactly when the
relational update reported a change AND the content field of the update
set is truthy — present with a non-empty string value; and whenever it
does re-embed, the stored vector becomes the embedding of the new
content. -/
theorem c7_reembed_iff (embedFn : String → List ℚ) (st : HybridState)
    (tn : String) (id : ℚ) (u : DocUpdates)
    (h : st.initialized = true) :
    ((HybridRAGModule.updateDocument embedFn st tn id u).2.2).any
        Event.isInsertVector =
      ((mysqlUpdateDocument (st.docStore tn) id u).2 &&
        contentTruthy u.content) ∧
    (contentTruthy u.content = true →
      (mysqlUpdateDocument (st.docStore tn) id u).2 = true →
      (HybridRAGModule.updateDocument embedFn st tn id u).1.vecStore tn id
        = some (embedFn (u.content.getD ""))) := by
  constructor
  · unfold HybridRAGModule.updateDocument
    cases hc : ((mysqlUpdateDocument (st.docStore tn) id u).2 &&
        contentTruthy u.content) <;>
      simp [h, hc, Event.isInsertVector]
  · intro hct hupd
    unfold HybridRAGModule.updateDocument
    simp [h, hct, hupd, putVector]

/-- The closed instantiation of c7_reembed_iff: updating the content to
a non-empty string on an existing row does re-embed, and the stored
vector becomes the embedding of the new content. -/
theorem c7_reembed_iff_witness :
    contentTruthy (some "new") = true ∧
    (mysqlUpdateDocument (hstEx.docStore "t") 1
      ⟨none, some "new", none⟩).2 = true ∧
    ((HybridRAGModule.updateDocument embedFnEx hstEx "t" 1
        ⟨none, some "new", none⟩).2.2).any Event.isInsertVector =
      ((mysqlUpdateDocument (hstEx.docStore "t") 1
        ⟨none, some "new", none⟩).2 && contentTruthy (some "new")) ∧
    (HybridRAGModule.updateDocument embedFnEx hstEx "t" 1
        ⟨none, some "new", none⟩).1.vecStore "t" 1 =
      some (embedFnEx ((some "new" : Option String).getD "")) := by
  refine ⟨rfl, rfl, ?_, ?_⟩
  · exact (c7_reembed_iff embedFnEx hstEx "t" 1 ⟨none, some "new", none⟩
      rfl).1
  · exact (c7_reembed_iff embedFnEx hstEx "t" 1 ⟨none, some "new", none⟩
      rfl).2 rfl rfl

/-- The first INVALID_INPUT error raised by RAGModule.validateSaveRequest,
following the validator call order of the source: text first, then the
id, then the tablename. -/
def firstSaveValidationError (req : SaveRequest) : Option JsError :=
  match validateText req.text "text" with
  | .error e => some e
  | .ok _ =>
    match validateId req.id with
    | .error e => some e
    | .ok _ =>
      match validateTableName req.tablename with
      | .error e => some e
      | .ok _ => none

theorem validateSaveRequest_error_of_first (req : SaveRequest)
    (e : JsError) (h : firstSaveValidationError req = some e) :
    validateSaveRequest req = .error e := by
  unfold firstSaveValidationError at h
  unfold validateSaveRequest
  cases h1 : validateText req.text "text" <;> simp [h1] at h ⊢
  case error e1 => exact h
  case ok t =>
    cases h2 : validateId req.id <;> simp [h2] at h ⊢
    case error e2 => exact h
    case ok i =>
      cases h3 : validateTableName req.tablename <;> simp [h3] at h ⊢
      exact h

/-- Claim C5, confirmed: on an initialized instance, a save request that
fails validation produces an empty collaborator trace — no embedding
call, no table creation, no vector insert, so both stores are untouched
— and the surfaced error is the first validator failure in the order
text, then id, then tablename.  When the text field is null or undefined
the pre-validation debug-log access fails instead (claim C2), still with
an empty trace. -/
theorem c5_validation_before_effects (env : Env) (st : ModState)
    (req : SaveRequest) (e : JsError) (h : st.initialized = true) :
    (lengthAccessOk req.text = false →
      RAGModule.save env st req = (.error lengthTypeError, [])) ∧
    (lengthAccessOk req.text = true →
      firstSaveValidationError req = some e →
      RAGModule.save env st req = (.error e, [])) := by
  constructor
  · intro hl
    unfold RAGModule.save
    simp [h, hl]
  · intro hl he
    have hv := validateSaveRequest_error_of_first req e he
    unfold RAGModule.save
    simp [h, hl, hv]

/-- The closed instantiation of c5_validation_before_effects: a save
request whose text, id and tablename are all invalid surfaces the text
error — whitespace-only text — with no collaborator call at all. -/
theorem c5_validation_witness :
    lengthAccessOk (JSVal.str "   ") = true ∧
    firstSaveValidationError ⟨.num (-1), .str "   ", .str "TABLE"⟩ =
      some (invalidInput "text cannot be empty") ∧
    RAGModule.save envOk stInit ⟨.num (-1), .str "   ", .str "TABLE"⟩ =
      (.error (invalidInput "text cannot be empty"), []) :=
  ⟨rfl, by with_unfolding_all rfl,
   (c5_validation_before_effects envOk stInit
      ⟨.num (-1), .str "   ", .str "TABLE"⟩
      (invalidInput "text cannot be empty") rfl).2 rfl
    (by with_unfolding_all rfl)⟩

theorem wrapForeign_of_rag (m : String) (k : ErrorCodes) (e : JsError)
    (h : e.isRag = true) : wrapForeign m k e = e := by
  cases e <;> simp_all [wrapForeign, JsError.isRag]

theorem wrapForeign_of_js (m : String) (k : ErrorCodes) (e : JsError)
    (h : e.isRag = false) :
    wrapForeign m k e = .ragCause (m ++ e.msg) k e := by
  cases e <;> simp_all [wrapForeign, JsError.isRag, JsError.msg]

theorem validateText_ok_anyField (v : JSVal) (n1 n2 t : String)
    (h : validateText v n1 = .ok t) : validateText v n2 = .ok t := by
  cases v
  case str s =>
    simp only [validateText] at h ⊢
    split_ifs at h ⊢
    all_goals simp_all
  all_goals simp [validateText] at h

/-- Claim C3, amended and confirmed at the orchestrator boundary: on an
initialized instance with a valid request, when the embedding
collaborator fails, embed, save and search re-raise a taxonomy error
exactly as received — same kind, same message, no re-wrap — while a
foreign error is wrapped exactly once into a RAGError whose kind matches
the failing operation (EMBEDDING_FAILED, VECTOR_SAVE_FAILED,
SEARCH_FAILED respectively) and whose cause is the original error.  The
claim's further assertion that no intermediate layer ever re-wraps a
taxonomy error is refuted by c3_counterexample. -/
theorem c3_orchestrator_no_rewrap (env : Env) (st : ModState)
    (s : String) (idv tnv qv : JSVal) (t tn : String) (i q : ℚ)
    (e : JsError) (h : st.initialized = true)
    (hv : validateText (.str s) "text" = .ok t)
    (hi : validateId idv = .ok i)
    (htn : validateTableName tnv = .ok tn)
    (hq : validateSearchQuantity qv = .ok q)
    (he : env.embedResult (sanitizeText t) = .error e) :
    (e.isRag = true →
      (RAGModule.embed env st ⟨.str s⟩).1 = .error e ∧
      (RAGModule.save env st ⟨idv, .str s, tnv⟩).1 = .error e ∧
      (RAGModule.search env st ⟨.str s, tnv, qv⟩).1 = .error e) ∧
    (e.isRag = false →
      (RAGModule.embed env st ⟨.str s⟩).1 =
        .error (.ragCause ("Failed to generate embedding: " ++ e.msg)
          .EMBEDDING_FAILED e) ∧
      (RAGModule.save env st ⟨idv, .str s, tnv⟩).1 =
        .error (.ragCause ("Failed to save vector: " ++ e.msg)
          .VECTOR_SAVE_FAILED e) ∧
      (RAGModule.search env st ⟨.str s, tnv, qv⟩).1 =
        .error (.ragCause ("Failed to search vectors: " ++ e.msg)
          .SEARCH_FAILED e)) := by
  have hve : validateEmbedRequest ⟨.str s⟩ = .ok (sanitizeText t) := by
    unfold validateEmbedRequest
    simp [hv]
  have hvs : validateSaveRequest ⟨idv, .str s, tnv⟩ =
      .ok (sanitizeText t, i, tn) := by
    unfold validateSaveRequest
    simp [hv, hi, htn]
  have hvr : validateSearchRequest ⟨.str s, tnv, qv⟩ =
      .ok (sanitizeText t, tn, q) := by
    unfold validateSearchRequest
    simp [validateText_ok_anyField (.str s) "text" "Search text" t hv,
      htn, hq]
  constructor
  · intro hrag
    refine ⟨?_, ?_, ?_⟩
    · unfold RAGModule.embed
      simp [h, lengthAccessOk, hve, he, wrapForeign_of_rag _ _ _ hrag]
    · unfold RAGModule.save
      simp [h, lengthAccessOk, hvs, he, wrapForeign_of_rag _ _ _ hrag]
    · unfold RAGModule.search
      simp [h, lengthAccessOk, hvr, he, wrapForeign_of_rag _ _ _ hrag]
  · intro hjs
    refine ⟨?_, ?_, ?_⟩
    · unfold RAGModule.embed
      simp [h, lengthAccessOk, hve, he, wrapForeign_of_js _ _ _ hjs]
    · unfold RAGModule.save
      simp [h, lengthAccessOk, hvs, he, wrapForeign_of_js _ _ _ hjs]
    · unfold RAGModule.search
      simp [h, lengthAccessOk, hvr, he, wrapForeign_of_js _ _ _ hjs]

/-- A taxonomy failure of the embedding engine, as the collaborator
raises it. -/
def ragEngineErr : JsError := .ragNoCause "engine down" .EMBEDDING_FAILED

/-- A collaborator environment whose embedding engine always raises
ragEngineErr. -/
def envEmbedFail : Env :=
  {envOk with embedResult := fun _ => .error ragEngineErr}

/-- The closed instantiation of c3_orchestrator_no_rewrap: an
EMBEDDING_FAILED taxonomy error raised by the engine surfaces unchanged
from embed, save and search. -/
theorem c3_no_rewrap_witness :
    (ragEngineErr.isRag = true →
      (RAGModule.embed envEmbedFail stInit ⟨.str "hi"⟩).1 =
        .error ragEngineErr ∧
      (RAGModule.save envEmbedFail stInit
        ⟨.num 1, .str "hi", .str "docs"⟩).1 = .error ragEngineErr ∧
      (RAGModule.search envEmbedFail stInit
        ⟨.str "hi", .str "docs", .num 5⟩).1 = .error ragEngineErr) ∧
    (ragEngineErr.isRag = false →
      (RAGModule.embed envEmbedFail stInit ⟨.str "hi"⟩).1 =
        .error (.ragCause
          ("Failed to generate embedding: " ++ ragEngineErr.msg)
          .EMBEDDING_FAILED ragEngineErr) ∧
      (RAGModule.save envEmbedFail stInit
        ⟨.num 1, .str "hi", .str "docs"⟩).1 =
        .error (.ragCause ("Failed to save vector: " ++ ragEngineErr.msg)
          .VECTOR_SAVE_FAILED ragEngineErr) ∧
      (RAGModule.search envEmbedFail stInit
        ⟨.str "hi", .str "docs", .num 5⟩).1 =
        .error (.ragCause
          ("Failed to search vectors: " ++ ragEngineErr.msg)
          .SEARCH_FAILED ragEngineErr)) :=
  c3_orchestrator_no_rewrap envEmbedFail stInit "hi" (.num 1)
    (.str "docs") (.num 5) "hi" "docs" 1 5 ragEngineErr rfl
    (by with_unfolding_all rfl) (by with_unfolding_all rfl)
    (by with_unfolding_all rfl) (by with_unfolding_all rfl) rfl

/-- The table-name grammar of the specification — the anchored regex,
the 64-character bound and the case-insensitive reserved-word exclusion
— as a predicate on one string. -/
def goodTableName (t : String) : Bool :=
  matchesTableRegex t && decide (jsLength t ≤ 64) && !reservedHit t

theorem matchesTableRegex_of_len0 (t : String) (h : jsLength t = 0) :
    matchesTableRegex t = false := by
  unfold matchesTableRegex
  unfold jsLength at h
  rcases ht : t.data with _ | ⟨c, cs⟩
  · rfl
  · rw [ht] at h
    simp at h

/-- Claim C6, amended and confirmed: validateTableName is completely
characterized by the grammar applied to the TRIMMED input — for every
string whose trimmed form matches the anchored regex, is at most 64
characters long and is not a reserved word case-insensitively, it
returns the trimmed input; for every other string it raises an
INVALID_INPUT taxonomy error.  (On the raw input, as the claim states
it, the characterization fails: see c6_counterexample.) -/
theorem c6_tablename_characterization (s : String) :
    (goodTableName (jsTrim s) = true ∧
      validateTableName (.str s) = .ok (jsTrim s)) ∨
    (goodTableName (jsTrim s) = false ∧
      ∃ m, validateTableName (.str s) = .error (invalidInput m)) := by
  simp only [validateTableName]
  split_ifs with h0 h1 h2 h3 h4
  · right
    constructor
    · have hts : s.data = [] := by
        unfold jsLength at h0
        exact List.length_eq_zero.mp h0
      have hz : jsLength (jsTrim s) = 0 := by
        simp [jsTrim, jsLength, jsTrimL, hts]
      simp [goodTableName, matchesTableRegex_of_len0 _ hz]
    · exact ⟨"Table name cannot be empty", rfl⟩
  · right
    constructor
    · simp [goodTableName, matchesTableRegex_of_len0 _ h1]
    · exact ⟨"Table name cannot be empty or whitespace only", rfl⟩
  · right
    constructor
    · have hd : decide (jsLength (jsTrim s) ≤ 64) = false := by
        simp only [decide_eq_false_iff_not]
        omega
      simp [goodTableName, hd]
    · exact ⟨"Invalid table name format", rfl⟩
  · right
    constructor
    · have hm : matchesTableRegex (jsTrim s) = false := by
        simpa using h3
      simp [goodTableName, hm]
    · exact ⟨"Invalid table name format", rfl⟩
  · right
    constructor
    · simp [goodTableName, h4]
    · exact ⟨"Table name \x27" ++ jsTrim s ++
        "\x27 is a reserved SQL keyword", rfl⟩
  · left
    constructor
    · have hm : matchesTableRegex (jsTrim s) = true := by
        revert h3
        cases matchesTableRegex (jsTrim s) <;> simp
      have hr : reservedHit (jsTrim s) = false := by
        revert h4
        cases reservedHit (jsTrim s) <;> simp
      have hd : decide (jsLength (jsTrim s) ≤ 64) = true := by
        simp only [decide_eq_true_eq]
        omega
      simp [goodTableName, hm, hr, hd]
    · rfl

end RAG
